import Mathlib

/-!
Shallow embedding of the calculation core of the `hudson212` property-investment
dashboard, and proofs about it.

Sources embedded:
* `src/pages/investment_analysis.py` — the investment-metric block guarded by
  `if calculate_button and purchase_price > 0:` (mortgage payment, cap rate,
  cash-on-cash return, 10-year projection).
* `src/pages/1_..._Property_Search.py` — `safe_get`, `safe_numeric_get`,
  `calculate_data_completeness`, `calculate_price_per_sqft`.

Conventions of the embedding:
* Python floats are idealised as exact rationals (`ℚ`).
* A Python expression that can raise `ZeroDivisionError` is embedded as an
  `Except Unit _` value, `Except.error ()` standing for the raised exception.
* JSON-like Python values (the property payloads) are embedded as the
  inductive `PyVal`; property records are association lists `List (String × PyVal)`.
-/

namespace Hudson

/-! ## Mortgage / investment metric calculations (`investment_analysis.py`) -/

/-- `down_payment = purchase_price * (down_payment_pct / 100)` -/
def down_payment (purchase_price down_payment_pct : ℚ) : ℚ :=
  purchase_price * (down_payment_pct / 100)

/-- `loan_amount = purchase_price - down_payment` -/
def loan_amount (purchase_price down_payment_pct : ℚ) : ℚ :=
  purchase_price - down_payment purchase_price down_payment_pct

/-- `monthly_interest_rate = (interest_rate / 100) / 12` -/
def monthly_interest_rate (interest_rate : ℚ) : ℚ :=
  (interest_rate / 100) / 12

/-- `num_payments = loan_term * 12` -/
def num_payments (loan_term : ℕ) : ℕ :=
  loan_term * 12

/-- The mortgage-payment computation of `investment_analysis.py`:

```
if monthly_interest_rate > 0:
    monthly_payment = loan_amount * (monthly_interest_rate * (1 + monthly_interest_rate)**num_payments) / ((1 + monthly_interest_rate)**num_payments - 1)
else:
    monthly_payment = loan_amount / num_payments
```

A zero denominator raises `ZeroDivisionError` in Python, embedded as
`Except.error ()`. -/
def monthly_payment (loanAmount interest_rate : ℚ) (loan_term : ℕ) :
    Except Unit ℚ :=
  let r := monthly_interest_rate interest_rate
  let n := num_payments loan_term
  if 0 < r then
    if (1 + r) ^ n - 1 = 0 then Except.error ()
    else Except.ok (loanAmount * (r * (1 + r) ^ n) / ((1 + r) ^ n - 1))
  else
    if (n : ℚ) = 0 then Except.error ()
    else Except.ok (loanAmount / (n : ℚ))

/-- Value of an `Except Unit ℚ` when it is `ok`, `0` on `error`. -/
def okVal : Except Unit ℚ → ℚ
  | Except.ok q => q
  | Except.error _ => 0

/-- `annual_rent = monthly_rent * 12` -/
def annual_rent (monthly_rent : ℚ) : ℚ := monthly_rent * 12

/-- `effective_annual_rent = annual_rent * (1 - vacancy_rate / 100)` -/
def effective_annual_rent (monthly_rent vacancy_rate : ℚ) : ℚ :=
  annual_rent monthly_rent * (1 - vacancy_rate / 100)

/-- `annual_maintenance = effective_annual_rent * (maintenance_pct / 100)` -/
def annual_maintenance (monthly_rent vacancy_rate maintenance_pct : ℚ) : ℚ :=
  effective_annual_rent monthly_rent vacancy_rate * (maintenance_pct / 100)

/-- `annual_management = effective_annual_rent * (management_pct / 100)` -/
def annual_management (monthly_rent vacancy_rate management_pct : ℚ) : ℚ :=
  effective_annual_rent monthly_rent vacancy_rate * (management_pct / 100)

/-- `cap_rate = (effective_annual_rent - (property_tax + insurance + annual_maintenance + annual_management)) / purchase_price * 100`,
exactly as in the source (this line mentions no mortgage quantity). -/
def cap_rate (purchase_price monthly_rent vacancy_rate property_tax insurance
    maintenance_pct management_pct : ℚ) : ℚ :=
  (effective_annual_rent monthly_rent vacancy_rate -
      (property_tax + insurance +
        annual_maintenance monthly_rent vacancy_rate maintenance_pct +
        annual_management monthly_rent vacancy_rate management_pct)) /
    purchase_price * 100

/-- `cash_on_cash_return = annual_cash_flow / down_payment * 100 if down_payment > 0 else 0` -/
def cash_on_cash_return (annual_cash_flow downPayment : ℚ) : ℚ :=
  if 0 < downPayment then annual_cash_flow / downPayment * 100 else 0

/-- All inputs of the investment-metric block of `investment_analysis.py`. -/
structure MetricInputs where
  purchase_price : ℚ
  down_payment_pct : ℚ
  loan_term : ℕ
  interest_rate : ℚ
  monthly_rent : ℚ
  vacancy_rate : ℚ
  property_tax : ℚ
  insurance : ℚ
  maintenance_pct : ℚ
  management_pct : ℚ

/-- All quantities computed by the metric block. -/
structure Metrics where
  down_payment : ℚ
  loan_amount : ℚ
  monthly_payment : ℚ
  effective_annual_rent : ℚ
  annual_maintenance : ℚ
  annual_management : ℚ
  annual_mortgage : ℚ
  total_annual_expenses : ℚ
  annual_cash_flow : ℚ
  monthly_cash_flow : ℚ
  cap_rate : ℚ
  cash_on_cash_return : ℚ

/-- The straight-line metric block of `investment_analysis.py` (the body of
`if calculate_button and purchase_price > 0:`).  If the mortgage-payment line
raises, the whole block raises. -/
def computeMetrics (i : MetricInputs) : Except Unit Metrics := do
  let dp := down_payment i.purchase_price i.down_payment_pct
  let loan := loan_amount i.purchase_price i.down_payment_pct
  let mp ← monthly_payment loan i.interest_rate i.loan_term
  let ear := effective_annual_rent i.monthly_rent i.vacancy_rate
  let maint := annual_maintenance i.monthly_rent i.vacancy_rate i.maintenance_pct
  let mgmt := annual_management i.monthly_rent i.vacancy_rate i.management_pct
  let mortgage := mp * 12
  let expenses := mortgage + i.property_tax + i.insurance + maint + mgmt
  let acf := ear - expenses
  pure
    { down_payment := dp
      loan_amount := loan
      monthly_payment := mp
      effective_annual_rent := ear
      annual_maintenance := maint
      annual_management := mgmt
      annual_mortgage := mortgage
      total_annual_expenses := expenses
      annual_cash_flow := acf
      monthly_cash_flow := acf / 12
      cap_rate := cap_rate i.purchase_price i.monthly_rent i.vacancy_rate
        i.property_tax i.insurance i.maintenance_pct i.management_pct
      cash_on_cash_return := cash_on_cash_return acf dp }

/-! ## 10-year cash-flow projection (`investment_analysis.py`)

```
projected_rent = [effective_annual_rent * (1 + annual_rent_increase/100)**year for year in range(10)]
projected_expenses = [total_annual_expenses] * 10
projected_cash_flow = [rent - exp for rent, exp in zip(projected_rent, projected_expenses)]
cumulative_cash_flow = np.cumsum(projected_cash_flow)
```
-/

/-- `projected_rent` -/
def projected_rent (effectiveAnnualRent annual_rent_increase : ℚ) : List ℚ :=
  (List.range 10).map (fun year => effectiveAnnualRent * (1 + annual_rent_increase / 100) ^ year)

/-- `projected_expenses` -/
def projected_expenses (totalAnnualExpenses : ℚ) : List ℚ :=
  List.replicate 10 totalAnnualExpenses

/-- `projected_cash_flow` -/
def projected_cash_flow (effectiveAnnualRent annual_rent_increase totalAnnualExpenses : ℚ) : List ℚ :=
  List.zipWith (fun rent exp => rent - exp)
    (projected_rent effectiveAnnualRent annual_rent_increase)
    (projected_expenses totalAnnualExpenses)

/-- `np.cumsum`: running prefix sums. -/
def cumsum : List ℚ → List ℚ :=
  go 0
where
  /-- accumulator-passing helper for `cumsum` -/
  go (acc : ℚ) : List ℚ → List ℚ
    | [] => []
    | x :: xs => (acc + x) :: go (acc + x) xs

/-- `cumulative_cash_flow = np.cumsum(projected_cash_flow)` -/
def cumulative_cash_flow (effectiveAnnualRent annual_rent_increase totalAnnualExpenses : ℚ) : List ℚ :=
  cumsum (projected_cash_flow effectiveAnnualRent annual_rent_increase totalAnnualExpenses)

/-! ## JSON-like Python values (`1_..._Property_Search.py`) -/

/-- A JSON-like Python value as found in the provider's property payloads. -/
inductive PyVal where
  | null : PyVal
  | str (s : String) : PyVal
  | num (q : ℚ) : PyVal
  | bool (b : Bool) : PyVal
  | list (l : List PyVal) : PyVal
  | dict (d : List (String × PyVal)) : PyVal

/-- A property record: a Python dict with string keys. -/
abbrev PyDict := List (String × PyVal)

/-- `data.get(key)`: first binding of `key`, if any. -/
def pyGet (data : PyDict) (key : String) : Option PyVal :=
  (data.find? (fun p => p.1 = key)).map (fun p => p.2)

/-- `safe_get(data, key)` with its default `"N/A"`:

```
value = data.get(key, default)
if value is None or value == "" or value == []:
    return default
return value
```

Note Python's `value == []` is `True` only for the empty list (an empty dict
`{}` is *not* `== []` and passes through). -/
def safe_get (data : PyDict) (key : String) : PyVal :=
  match pyGet data key with
  | none => PyVal.str "N/A"
  | some PyVal.null => PyVal.str "N/A"
  | some (PyVal.str s) => if s = "" then PyVal.str "N/A" else PyVal.str s
  | some (PyVal.list l) => if l.isEmpty then PyVal.str "N/A" else PyVal.list l
  | some v => v

/-! ### Python string helpers used by `safe_numeric_get` -/

/-- Fuelled worker for `removeAll`; the fuel only bounds the recursion depth
(structurally), it never runs out when initialised with the list's length. -/
def removeAllFuel (p : Char) (ps : List Char) : ℕ → List Char → List Char
  | _, [] => []
  | 0, l => l
  | fuel + 1, c :: rest =>
    if c = p ∧ List.isPrefixOf ps rest then removeAllFuel p ps fuel (rest.drop ps.length)
    else c :: removeAllFuel p ps fuel rest

/-- `s.replace(pat, "")` for a nonempty pattern `p :: ps`: delete every
occurrence, scanning left to right without rescanning deleted material. -/
def removeAll (p : Char) (ps : List Char) (l : List Char) : List Char :=
  removeAllFuel p ps l.length l

/-- `s.strip()`: remove leading and trailing whitespace. -/
def pyStrip (l : List Char) : List Char :=
  ((l.dropWhile Char.isWhitespace).reverse.dropWhile Char.isWhitespace).reverse

/-- `s.isdigit()` (restricted to ASCII): nonempty and all decimal digits. -/
def pyIsDigit (l : List Char) : Bool :=
  !l.isEmpty && l.all Char.isDigit

/-- Numeric value of a digit string. -/
def digitsVal (l : List Char) : ℕ :=
  l.foldl (fun a c => 10 * a + (c.toNat - 48)) 0

/-- `float(s)` for the strings this code ever feeds it: succeeds exactly on
strings of digits and at most one `.` containing at least one digit; `none`
models the raised `ValueError` otherwise. -/
def pyFloat (l : List Char) : Option ℚ :=
  if (l.all fun c => c.isDigit || c = '.') ∧ (l.any Char.isDigit) ∧
      l.countP (fun c => c = '.') ≤ 1 then
    let intPart := l.takeWhile (fun c => c ≠ '.')
    let fracPart := (l.dropWhile (fun c => c ≠ '.')).drop 1
    some ((digitsVal intPart : ℚ) + (digitsVal fracPart : ℚ) / 10 ^ fracPart.length)
  else none

/-- The cleaning pipeline of `safe_numeric_get`:
`value.replace(',', '').replace('$', '').replace(' sq ft', '').strip()`. -/
def cleanNumeric (s : String) : List Char :=
  pyStrip (removeAll ' ' ['s', 'q', ' ', 'f', 't'] (removeAll '$' [] (removeAll ',' [] s.data)))

/-- `safe_numeric_get(data, key, default=None)`:

```
value = safe_get(data, key)
if value == "N/A" or value is None:
    return default
if isinstance(value, (int, float)):
    return float(value)
if isinstance(value, str):
    cleaned = value.replace(',', '').replace('$', '').replace(' sq ft', '').strip()
    if cleaned.replace('.', '').isdigit():
        return float(cleaned)
return default
```
wrapped in `try/except (ValueError, TypeError): return default` — a
`ValueError` from `float(cleaned)` (more than one `.`) yields the default.
Python's `bool` is an `int`, so booleans take the numeric branch. -/
def safe_numeric_get (data : PyDict) (key : String) (default : Option ℚ) :
    Option ℚ :=
  match safe_get data key with
  | PyVal.null => default
  | PyVal.num q => some q
  | PyVal.bool b => some (if b then 1 else 0)
  | PyVal.str s =>
    if s = "N/A" then default
    else
      let cleaned := cleanNumeric s
      if pyIsDigit (cleaned.filter (fun c => c ≠ '.')) then
        match pyFloat cleaned with
        | some q => some q
        | none => default
      else default
  | _ => default

/-! ### Data-completeness scoring -/

/-- The fixed checklist of `calculate_data_completeness`. -/
def key_fields : List String :=
  ["formattedAddress", "address", "propertyType", "bedrooms", "bathrooms",
   "squareFootage", "yearBuilt", "estimatedValue", "marketValue", "city",
   "state", "zipCode", "owner", "history", "propertyTaxes", "features"]

/-- The per-field test of `calculate_data_completeness` applied to
`safe_get(property_data, field)`:

```
if value != "N/A" and value is not None and value != "" and value != []:
    if isinstance(value, dict) and value: filled += 1
    elif isinstance(value, list) and value: filled += 1
    elif not isinstance(value, (dict, list)): filled += 1
```
-/
def countedField (v : PyVal) : Bool :=
  match v with
  | PyVal.null => false
  | PyVal.str s => decide (s ≠ "N/A") && decide (s ≠ "")
  | PyVal.list l => !l.isEmpty
  | PyVal.dict d => !d.isEmpty
  | _ => true

/-- `calculate_data_completeness(property_data)`: filled fields over the
checklist length (the body raises nothing, so the `except Exception: 0.0`
wrapper is dead). -/
def calculate_data_completeness (data : PyDict) : ℚ :=
  ((key_fields.countP (fun f => countedField (safe_get data f)) : ℚ)) /
    (key_fields.length : ℚ)

/-! ### Price per square foot -/

/-- Python `round` to an integer: round-half-to-even. -/
def roundHalfEven (q : ℚ) : ℤ :=
  if Int.fract q = 1 / 2 then (if Even ⌊q⌋ then ⌊q⌋ else ⌊q⌋ + 1) else round q

/-- Python `round(x, 2)`. -/
def pyRound2 (q : ℚ) : ℚ :=
  (roundHalfEven (q * 100) : ℚ) / 100

/-- `calculate_price_per_sqft(property_data)`:

```
value = safe_numeric_get(property_data, 'estimatedValue')
sqft = safe_numeric_get(property_data, 'squareFootage')
if value and sqft and sqft > 0:
    return round(value / sqft, 2)
return None
```
(`value and sqft` is Python truthiness: `None` and `0.0` are falsy). -/
def calculate_price_per_sqft (data : PyDict) : Option ℚ :=
  match safe_numeric_get data "estimatedValue" none,
      safe_numeric_get data "squareFootage" none with
  | some v, some s =>
    if v ≠ 0 ∧ s ≠ 0 ∧ 0 < s then some (pyRound2 (v / s)) else none
  | _, _ => none

/-! ## Spec-side definitions (transcribed from the specification's wording,
for comparison with the code-side definitions above) -/

/-- Spec wording of the cap rate (§4.2): `(effective_annual_rent −
(tax+insurance+maintenance+management)) / purchase_price × 100`, maintenance
and management being the given percentages of effective annual rent.  No
mortgage quantity is an argument. -/
def capRateSpec (purchase_price eff tax ins maintenance_pct management_pct : ℚ) : ℚ :=
  (eff - (tax + ins + eff * maintenance_pct / 100 + eff * management_pct / 100)) /
    purchase_price * 100

/-- Spec wording of field-presence (§4.4 / claim C6): a value is populated when
it is a non-null non-empty scalar, or a non-empty collection/mapping. -/
def populatedSpec : PyVal → Bool
  | PyVal.null => false
  | PyVal.str s => decide (s ≠ "")
  | PyVal.num _ => true
  | PyVal.bool _ => true
  | PyVal.list l => !l.isEmpty
  | PyVal.dict d => !d.isEmpty

/-- Amended field-presence for claim C6: as `populatedSpec`, except that the
string `"N/A"` — the code's own missing-data sentinel — does not count, and a
missing key does not count. -/
def populatedAmended : Option PyVal → Bool
  | none => false
  | some (PyVal.str s) => decide (s ≠ "") && decide (s ≠ "N/A")
  | some v => populatedSpec v

/-- The set of strings accepted by claim C10's wording: after removing an
optional `" sq ft"` *suffix*, only digits, commas, dollar signs and at most one
decimal point remain. -/
def specNumericString (s : String) : Bool :=
  let l := s.data
  let core := if List.isSuffixOf (" sq ft".data) l then l.take (l.length - 6) else l
  (core.all fun c => c.isDigit || c = ',' || c = '$' || c = '.') &&
    core.countP (fun c => c = '.') ≤ 1

/-- Amended wording of claim C10 for the value of `safe_numeric_get`: numbers
(including booleans, which Python treats as ints) are returned as floats; a
string other than `"N/A"` is cleaned by deleting *every* occurrence of `,`,
`$` and `" sq ft"` (anywhere, not only as a suffix) and trimming whitespace,
and parsed if the remainder consists of digits and at most one decimal point
with at least one digit; every other value gives the default. -/
def specNumericGetAmended (data : PyDict) (key : String) (default : Option ℚ) :
    Option ℚ :=
  match pyGet data key with
  | some (PyVal.num q) => some q
  | some (PyVal.bool b) => some (if b then 1 else 0)
  | some (PyVal.str s) =>
    if s = "N/A" then default
    else
      match pyFloat (cleanNumeric s) with
      | some q => some q
      | none => default
  | _ => default

/-! ## General lemmas about the embedded code -/

/-- `monthly_payment` succeeds whenever the loan term is positive. -/
lemma monthly_payment_isOk (L r : ℚ) (N : ℕ) (hN : 0 < N) :
    ∃ p, monthly_payment L r N = Except.ok p := by
  by_cases h0 : 0 < monthly_interest_rate r
  · have hn : num_payments N ≠ 0 := by
      unfold num_payments; positivity
    have hx : 1 < (1 + monthly_interest_rate r) ^ num_payments N :=
      one_lt_pow₀ (by linarith) hn
    have hne : (1 + monthly_interest_rate r) ^ num_payments N - 1 ≠ 0 := by linarith
    exact ⟨_, by simp only [monthly_payment]; rw [if_pos h0, if_neg hne]⟩
  · have hn : ((num_payments N : ℚ)) ≠ 0 := by
      have : num_payments N ≠ 0 := by unfold num_payments; positivity
      exact_mod_cast this
    exact ⟨_, by simp only [monthly_payment]; rw [if_neg h0, if_neg hn]⟩

/-- The last entry of a running sum is the accumulator plus the total. -/
lemma cumsum_go_getLast? (l : List ℚ) (h : l ≠ []) (acc : ℚ) :
    (cumsum.go acc l).getLast? = some (acc + l.sum) := by
  induction l generalizing acc with
  | nil => exact absurd rfl h
  | cons x xs ih =>
    cases xs with
    | nil => simp [cumsum.go]
    | cons y ys =>
      have h1 : cumsum.go acc (x :: y :: ys) = (acc + x) :: cumsum.go (acc + x) (y :: ys) := rfl
      have h2 : cumsum.go (acc + x) (y :: ys) = (acc + x + y) :: cumsum.go (acc + x + y) ys := rfl
      rw [h1, h2, List.getLast?_cons_cons, ← h2, ih (by simp) (acc + x)]
      simp [add_assoc]

/-- `(1+r)^n − 1 ≤ n·r·(1+r)^n` for `r ≥ 0`: the amortization key bound. -/
lemma pow_sub_one_le_nrpow (r : ℚ) (hr : 0 ≤ r) (n : ℕ) :
    (1 + r) ^ n - 1 ≤ (n : ℚ) * r * (1 + r) ^ n := by
  induction n with
  | zero => simp
  | succ n ih =>
    have hy : (1 : ℚ) ≤ (1 + r) ^ n := one_le_pow₀ (by linarith)
    have hcast : ((n + 1 : ℕ) : ℚ) = (n : ℚ) + 1 := by push_cast; ring
    rw [pow_succ, hcast]
    nlinarith [mul_nonneg (mul_nonneg (Nat.cast_nonneg n : (0:ℚ) ≤ n) hr)
        (mul_nonneg (sq_nonneg r) (le_trans zero_le_one hy)),
      mul_nonneg (mul_nonneg hr hr) (le_trans zero_le_one hy)]

/-- Running sums preserve length. -/
lemma cumsum_go_length (l : List ℚ) (acc : ℚ) :
    (cumsum.go acc l).length = l.length := by
  induction l generalizing acc with
  | nil => rfl
  | cons x xs ih => simp [cumsum.go, ih]

/-- When the mortgage payment succeeds, the metric block succeeds and its cap
rate is the `cap_rate` of the non-mortgage inputs. -/
lemma computeMetrics_cap_rate (i : MetricInputs) (p : ℚ)
    (h : monthly_payment (loan_amount i.purchase_price i.down_payment_pct)
      i.interest_rate i.loan_term = Except.ok p) :
    (computeMetrics i).map Metrics.cap_rate =
      Except.ok (cap_rate i.purchase_price i.monthly_rent i.vacancy_rate
        i.property_tax i.insurance i.maintenance_pct i.management_pct) := by
  unfold computeMetrics
  simp only [h]
  rfl

/-! ## Claims -/

/-- Claim C1: for every principal `P`, annual rate `r` (percent), positive term
`N` (years — the UI offers 15/20/25/30) and down-payment percent `d`, the
computed monthly payment equals
`loan × monthly_rate × (1+monthly_rate)^n / ((1+monthly_rate)^n − 1)` with
`loan = P − P×d/100`, `monthly_rate = r/100/12`, `n = N×12` when the monthly
rate is positive, and equals `loan/n` when the monthly rate is `0` (the
zero-rate case does not divide by zero). -/
theorem claim_C1_monthly_payment_formula (P r d : ℚ) (N : ℕ) (hN : 0 < N) :
    (0 < r → monthly_payment (loan_amount P d) r N =
      Except.ok ((P - P * d / 100) * (r / 100 / 12) * (1 + r / 100 / 12) ^ (N * 12) /
        ((1 + r / 100 / 12) ^ (N * 12) - 1))) ∧
    (r = 0 → monthly_payment (loan_amount P d) r N =
      Except.ok ((P - P * d / 100) / ((N : ℚ) * 12))) := by
  constructor
  · intro hr
    have hmr : 0 < monthly_interest_rate r := by
      unfold monthly_interest_rate; positivity
    have hn : num_payments N ≠ 0 := by unfold num_payments; positivity
    have hx : 1 < (1 + monthly_interest_rate r) ^ num_payments N :=
      one_lt_pow₀ (by linarith) hn
    have hne : (1 + monthly_interest_rate r) ^ num_payments N - 1 ≠ 0 := by linarith
    simp only [monthly_payment]
    rw [if_pos hmr, if_neg hne]
    congr 1
    unfold loan_amount down_payment monthly_interest_rate num_payments
    ring
  · intro hr
    subst hr
    have h0 : ¬ (0 : ℚ) < monthly_interest_rate 0 := by
      unfold monthly_interest_rate; norm_num
    have hn : ((num_payments N : ℚ)) ≠ 0 := by
      have : num_payments N ≠ 0 := by unfold num_payments; positivity
      exact_mod_cast this
    simp only [monthly_payment]
    rw [if_neg h0, if_neg hn]
    congr 1
    unfold loan_amount down_payment num_payments
    push_cast
    ring

/-- Witness for C1 at concrete inputs: a positive-rate case
(`P = 100000`, `r = 1200`, `d = 0`, `N = 1`) and a zero-rate case
(`P = 200`, `r = 0`, `d = 0`, `N = 1`). -/
theorem claim_C1_monthly_payment_formula_witness :
    (monthly_payment (loan_amount 100000 0) 1200 1 =
      Except.ok ((100000 - 100000 * 0 / 100) * (1200 / 100 / 12) *
        (1 + 1200 / 100 / 12) ^ (1 * 12 : ℕ) /
        ((1 + 1200 / 100 / 12) ^ (1 * 12 : ℕ) - 1))) ∧
    (monthly_payment (loan_amount 200 0) 0 1 =
      Except.ok ((200 - 200 * 0 / 100) / (((1 : ℕ) : ℚ) * 12))) :=
  ⟨(claim_C1_monthly_payment_formula 100000 1200 0 1 (by norm_num)).1 (by norm_num),
   (claim_C1_monthly_payment_formula 200 0 0 1 (by norm_num)).2 rfl⟩

/-- Claim C2: the 10-year projection has exactly 10 yearly entries, each year's
projected cash flow is that year's compounded projected rent minus the constant
total annual expenses, and the last cumulative entry is the sum of the 10
yearly cash flows. -/
theorem claim_C2_projection (ear g exp : ℚ) :
    (projected_rent ear g).length = 10 ∧
    (projected_cash_flow ear g exp).length = 10 ∧
    (cumulative_cash_flow ear g exp).length = 10 ∧
    projected_cash_flow ear g exp =
      (List.range 10).map (fun year => ear * (1 + g / 100) ^ year - exp) ∧
    (cumulative_cash_flow ear g exp).getLast? =
      some ((projected_cash_flow ear g exp).sum) := by
  have hlen : (projected_cash_flow ear g exp).length = 10 := by
    simp [projected_cash_flow, projected_rent, projected_expenses]
  refine ⟨by simp [projected_rent], hlen, ?_, ?_, ?_⟩
  · rw [cumulative_cash_flow, cumsum, cumsum_go_length, hlen]
  · rfl
  · have hne : projected_cash_flow ear g exp ≠ [] := by
      intro h
      rw [h] at hlen
      exact absurd hlen (by norm_num)
    rw [cumulative_cash_flow, cumsum, cumsum_go_getLast? _ hne, zero_add]

/-- Claim C4: the cash-on-cash return is `annual_cash_flow / down_payment × 100`
when the down payment is positive, `0` for every annual cash flow when the down
payment is `0` (no division-by-zero), and `0` when the annual cash flow is `0`
and the down payment is positive. -/
theorem claim_C4_cash_on_cash (acf dp : ℚ) :
    (0 < dp → cash_on_cash_return acf dp = acf / dp * 100) ∧
    (dp = 0 → cash_on_cash_return acf dp = 0) ∧
    (acf = 0 → 0 < dp → cash_on_cash_return acf dp = 0) := by
  refine ⟨fun h => by simp [cash_on_cash_return, h], fun h => ?_, fun h hdp => ?_⟩
  · simp [cash_on_cash_return, h]
  · simp [cash_on_cash_return, hdp, h]

/-- Witness for C4 at concrete inputs, one per case. -/
theorem claim_C4_cash_on_cash_witness :
    cash_on_cash_return 300 100 = 300 / 100 * 100 ∧
    cash_on_cash_return 500 0 = 0 ∧
    cash_on_cash_return 0 250 = 0 :=
  ⟨(claim_C4_cash_on_cash 300 100).1 (by norm_num),
   (claim_C4_cash_on_cash 500 0).2.1 rfl,
   (claim_C4_cash_on_cash 0 250).2.2 rfl (by norm_num)⟩

/-- Counterexample to claim C8: at purchase price 200000, rent 2000/month,
vacancy 0, tax 3000, insurance 1200, maintenance 8 % and management 10 %, the
computed cap rate is *not* 8.544 %. -/
theorem claim_C8_counterexample :
    cap_rate 200000 2000 0 3000 1200 8 10 ≠ 8544 / 1000 := by
  norm_num [cap_rate, effective_annual_rent, annual_rent, annual_maintenance,
    annual_management]

/-- Claim C8 as amended: the computed cap rate equals the claim's own formula
`(24000 − (3000+1200+24000×0.18))/200000×100`, whose value is 7.74 %, not
8.544 %. -/
theorem claim_C8_amended :
    cap_rate 200000 2000 0 3000 1200 8 10 =
      (24000 - (3000 + 1200 + 24000 * (18 / 100))) / 200000 * 100 ∧
    (24000 - (3000 + 1200 + 24000 * (18 / 100) : ℚ)) / 200000 * 100 = 774 / 100 := by
  constructor
  · norm_num [cap_rate, effective_annual_rent, annual_rent, annual_maintenance,
      annual_management]
  · norm_num

/-- Claim C3: for every positive purchase price the computed cap rate equals
`(effective_annual_rent − (property_tax + insurance + annual_maintenance +
annual_management)) / purchase_price × 100` with maintenance and management the
given percentages of effective annual rent, and it is unchanged by the
mortgage inputs (interest rate, loan term, down-payment percent): no debt
service appears in it. -/
theorem claim_C3_cap_rate_noi (i : MetricInputs) (_hp : 0 < i.purchase_price)
    (hN : 0 < i.loan_term) (r' dp' : ℚ) (t' : ℕ) (ht' : 0 < t') :
    (computeMetrics i).map Metrics.cap_rate =
      Except.ok (capRateSpec i.purchase_price
        (effective_annual_rent i.monthly_rent i.vacancy_rate)
        i.property_tax i.insurance i.maintenance_pct i.management_pct) ∧
    (computeMetrics
        { i with interest_rate := r', down_payment_pct := dp', loan_term := t' }).map
      Metrics.cap_rate = (computeMetrics i).map Metrics.cap_rate := by
  obtain ⟨p, hp1⟩ := monthly_payment_isOk
    (loan_amount i.purchase_price i.down_payment_pct) i.interest_rate i.loan_term hN
  obtain ⟨p', hp2⟩ := monthly_payment_isOk
    (loan_amount i.purchase_price dp') r' t' ht'
  constructor
  · rw [computeMetrics_cap_rate i p hp1]
    congr 1
    unfold cap_rate capRateSpec annual_maintenance annual_management
    ring
  · rw [computeMetrics_cap_rate
        { i with interest_rate := r', down_payment_pct := dp', loan_term := t' } p' hp2,
      computeMetrics_cap_rate i p hp1]

/-- Witness for C3 at a concrete input (price 200000, rent 2000, vacancy 0,
tax 3000, insurance 1200, maintenance 8 %, management 10 %, zero-rate 1-year
loan), varying the mortgage inputs to rate 6.5 %, 20 % down, 30-year term. -/
theorem claim_C3_cap_rate_noi_witness :
    ((computeMetrics ⟨200000, 0, 1, 0, 2000, 0, 3000, 1200, 8, 10⟩).map
        Metrics.cap_rate =
      Except.ok (capRateSpec 200000 (effective_annual_rent 2000 0) 3000 1200 8 10)) ∧
    ((computeMetrics ⟨200000, 20, 30, 13 / 2, 2000, 0, 3000, 1200, 8, 10⟩).map
        Metrics.cap_rate =
      (computeMetrics ⟨200000, 0, 1, 0, 2000, 0, 3000, 1200, 8, 10⟩).map
        Metrics.cap_rate) :=
  claim_C3_cap_rate_noi ⟨200000, 0, 1, 0, 2000, 0, 3000, 1200, 8, 10⟩
    (by norm_num) (by norm_num) (13 / 2) 20 30 (by norm_num)

/-- Claim C5: for every positive loan principal, nonnegative annual rate and
positive term, the monthly payment is defined and the total of the `N×12`
payments is at least the principal. -/
theorem claim_C5_amortization_total (L r : ℚ) (N : ℕ)
    (hL : 0 < L) (_hr : 0 ≤ r) (hN : 0 < N) :
    ∃ p, monthly_payment L r N = Except.ok p ∧ L ≤ p * (N : ℚ) * 12 := by
  have hcast : ((num_payments N : ℕ) : ℚ) = (N : ℚ) * 12 := by
    unfold num_payments; push_cast; ring
  have hnn : num_payments N ≠ 0 := by unfold num_payments; positivity
  by_cases h0 : 0 < monthly_interest_rate r
  · have hx1 : 1 < (1 + monthly_interest_rate r) ^ num_payments N :=
      one_lt_pow₀ (by linarith) hnn
    have hden : 0 < (1 + monthly_interest_rate r) ^ num_payments N - 1 := by linarith
    refine ⟨L * (monthly_interest_rate r * (1 + monthly_interest_rate r) ^ num_payments N) /
      ((1 + monthly_interest_rate r) ^ num_payments N - 1), ?_, ?_⟩
    · simp only [monthly_payment]
      rw [if_pos h0, if_neg (ne_of_gt hden)]
    · rw [div_mul_eq_mul_div, div_mul_eq_mul_div, le_div_iff₀ hden]
      have key := pow_sub_one_le_nrpow (monthly_interest_rate r) (le_of_lt h0)
        (num_payments N)
      have key2 : L * ((1 + monthly_interest_rate r) ^ num_payments N - 1) ≤
          L * ((num_payments N : ℚ) * monthly_interest_rate r *
            (1 + monthly_interest_rate r) ^ num_payments N) :=
        mul_le_mul_of_nonneg_left key (le_of_lt hL)
      calc L * ((1 + monthly_interest_rate r) ^ num_payments N - 1) ≤
          L * ((num_payments N : ℚ) * monthly_interest_rate r *
            (1 + monthly_interest_rate r) ^ num_payments N) := key2
        _ = L * (monthly_interest_rate r *
            (1 + monthly_interest_rate r) ^ num_payments N) * (N : ℚ) * 12 := by
          rw [hcast]; ring
  · have hq : ((num_payments N : ℚ)) ≠ 0 := by
      rw [hcast]; positivity
    refine ⟨L / (num_payments N : ℚ), ?_, ?_⟩
    · simp only [monthly_payment]
      rw [if_neg h0, if_neg hq]
    · have : L / ((num_payments N : ℚ)) * (N : ℚ) * 12 = L := by
        field_simp [hcast]
        ring
      rw [this]

/-- Witness for C5: principal 120, rate 0, term 1 year. -/
theorem claim_C5_amortization_total_witness :
    ∃ p, monthly_payment 120 0 1 = Except.ok p ∧ 120 ≤ p * ((1 : ℕ) : ℚ) * 12 :=
  claim_C5_amortization_total 120 0 1 (by norm_num) le_rfl (by norm_num)

/-- Counterexample to claim C7: with a zero loan term the mortgage-payment
computation divides by zero and raises (embedded as `Except.error ()`) instead
of returning a sentinel value. -/
theorem claim_C7_counterexample :
    monthly_payment 100000 (13 / 2) 0 = Except.error () := by
  norm_num [monthly_payment, monthly_interest_rate, num_payments]

/-- Claim C7 as amended: zero down payment in cash-on-cash returns the sentinel
`0` and zero square footage in price-per-square-foot returns the sentinel
`None`; the mortgage-payment code has no zero-term guard (a zero loan term
raises), but every loan term offered by the UI (15, 20, 25 or 30 years) makes
the computation succeed. -/
theorem claim_C7_amended :
    (∀ acf : ℚ, cash_on_cash_return acf 0 = 0) ∧
    (∀ data : PyDict, safe_numeric_get data "squareFootage" none = some 0 →
      calculate_price_per_sqft data = none) ∧
    (∀ (L r : ℚ) (N : ℕ), N = 15 ∨ N = 20 ∨ N = 25 ∨ N = 30 →
      ∃ p, monthly_payment L r N = Except.ok p) := by
  refine ⟨fun acf => by simp [cash_on_cash_return], fun data h => ?_, fun L r N hN => ?_⟩
  · unfold calculate_price_per_sqft
    rw [h]
    cases hv : safe_numeric_get data "estimatedValue" none with
    | none => rfl
    | some v => simp [lt_irrefl]
  · exact monthly_payment_isOk L r N (by rcases hN with h | h | h | h <;> omega)

/-- Bridge for C6: the per-field test the code applies to `safe_get` agrees
with the amended populated-ness of the raw dict entry. -/
lemma countedField_safe_get (data : PyDict) (f : String) :
    countedField (safe_get data f) = populatedAmended (pyGet data f) := by
  cases hpg : pyGet data f with
  | none => simp [safe_get, hpg, countedField, populatedAmended]
  | some v =>
    cases v with
    | null => simp [safe_get, hpg, countedField, populatedAmended, populatedSpec]
    | num q => simp [safe_get, hpg, countedField, populatedAmended, populatedSpec]
    | bool b => simp [safe_get, hpg, countedField, populatedAmended, populatedSpec]
    | dict d => simp [safe_get, hpg, countedField, populatedAmended, populatedSpec]
    | list l =>
      cases l with
      | nil => simp [safe_get, hpg, countedField, populatedAmended, populatedSpec]
      | cons a t => simp [safe_get, hpg, countedField, populatedAmended, populatedSpec]
    | str s =>
      by_cases hs : s = ""
      · subst hs
        simp [safe_get, hpg, countedField, populatedAmended]
      · simp [safe_get, hpg, countedField, populatedAmended, hs, Bool.and_comm]

/-- If the `isdigit` pre-check of `safe_numeric_get` fails, `float` would fail
too. -/
lemma pyFloat_eq_none_of_guard_false (l : List Char)
    (h : ¬ pyIsDigit (l.filter fun c => c ≠ '.') = true) :
    pyFloat l = none := by
  unfold pyFloat
  apply if_neg
  rintro ⟨hall, hany, -⟩
  apply h
  obtain ⟨c, hcl, hcd⟩ := List.any_eq_true.mp hany
  have hcne : c ≠ '.' := fun he => by rw [he] at hcd; exact absurd hcd (by decide)
  have hcf : c ∈ l.filter (fun c => decide (c ≠ '.')) :=
    List.mem_filter.mpr ⟨hcl, by simpa using hcne⟩
  have hfall : ∀ x ∈ l.filter (fun c => decide (c ≠ '.')), x.isDigit = true := by
    intro x hx
    obtain ⟨hxl, hxne⟩ := List.mem_filter.mp hx
    have hor : x.isDigit = true ∨ x = '.' := by
      simpa using List.all_eq_true.mp hall x hxl
    rcases hor with hd | hdot
    · exact hd
    · exact absurd hdot (by simpa using hxne)
  unfold pyIsDigit
  rw [Bool.and_eq_true]
  refine ⟨?_, List.all_eq_true.mpr hfall⟩
  cases hfe : l.filter (fun c => decide (c ≠ '.')) with
  | nil => exact absurd hfe (List.ne_nil_of_mem hcf)
  | cons a t => rfl

/-- Witness for C7's amended claim at concrete inputs. -/
theorem claim_C7_amended_witness :
    cash_on_cash_return 5 0 = 0 ∧
    calculate_price_per_sqft
      [("estimatedValue", PyVal.num 100000), ("squareFootage", PyVal.num 0)] = none ∧
    ∃ p, monthly_payment 160000 (13 / 2) 15 = Except.ok p :=
  ⟨claim_C7_amended.1 5,
   claim_C7_amended.2.1 [("estimatedValue", PyVal.num 100000),
     ("squareFootage", PyVal.num 0)] rfl,
   claim_C7_amended.2.2 160000 (13 / 2) 15 (Or.inl rfl)⟩

/-- Counterexample to claim C6: a record whose 16 checklist fields all hold the
string `"N/A"` — a non-null non-empty scalar, hence populated in the claim's
sense — scores 0.0, not 1.0. -/
theorem claim_C6_counterexample :
    (key_fields.all fun f =>
      (pyGet (key_fields.map fun g => (g, PyVal.str "N/A")) f).elim false
        populatedSpec) = true ∧
    calculate_data_completeness (key_fields.map fun g => (g, PyVal.str "N/A")) = 0 := by
  constructor
  · decide
  · have h : key_fields.countP (fun f =>
        countedField (safe_get (key_fields.map fun g => (g, PyVal.str "N/A")) f)) = 0 := by
      decide
    unfold calculate_data_completeness
    rw [h]
    norm_num

/-- Claim C6 as amended: the completeness score is the number of checklist
fields holding a non-null non-empty scalar *other than the sentinel string*
`"N/A"`, or a non-empty collection/mapping, divided by the checklist length 16;
a record with all 16 fields so populated scores 1.0 and one with none scores
0.0. -/
theorem claim_C6_amended (data : PyDict) :
    key_fields.length = 16 ∧
    calculate_data_completeness data =
      (key_fields.countP (fun f => populatedAmended (pyGet data f)) : ℚ) / 16 ∧
    ((∀ f ∈ key_fields, populatedAmended (pyGet data f) = true) →
      calculate_data_completeness data = 1) ∧
    ((∀ f ∈ key_fields, populatedAmended (pyGet data f) = false) →
      calculate_data_completeness data = 0) := by
  have hcnt : key_fields.countP (fun f => countedField (safe_get data f)) =
      key_fields.countP (fun f => populatedAmended (pyGet data f)) :=
    List.countP_congr (fun f _ => by rw [countedField_safe_get])
  have hlen : ((key_fields.length : ℕ) : ℚ) = 16 := by norm_num [key_fields]
  refine ⟨rfl, ?_, fun h => ?_, fun h => ?_⟩
  · unfold calculate_data_completeness
    rw [hcnt, hlen]
  · unfold calculate_data_completeness
    rw [hcnt, List.countP_eq_length.mpr h, hlen]
    norm_num [key_fields]
  · unfold calculate_data_completeness
    rw [hcnt, List.countP_eq_zero.mpr (fun f hf => by rw [h f hf]; simp)]
    norm_num

/-- Witness for C6's amended claim: a record with all 16 checklist fields
holding the number 1 scores 1.0; the empty record scores 0.0. -/
theorem claim_C6_amended_witness :
    calculate_data_completeness (key_fields.map fun f => (f, PyVal.num 1)) = 1 ∧
    calculate_data_completeness [] = 0 :=
  ⟨(claim_C6_amended (key_fields.map fun f => (f, PyVal.num 1))).2.2.1 (by decide),
   (claim_C6_amended []).2.2.2 (by decide)⟩

set_option maxRecDepth 4000 in
/-- Counterexample to claim C9: for loan 160000 at 6.5 % over 30 years the
computed monthly payment is *not* within 0.01 of 1011.61. -/
theorem claim_C9_counterexample :
    ∃ q, monthly_payment 160000 (13 / 2) 30 = Except.ok q ∧
      1 / 100 < |q - 101161 / 100| := by
  have h1 : (0:ℚ) < monthly_interest_rate (13 / 2) := by
    norm_num [monthly_interest_rate]
  have h2 : ((1:ℚ) + monthly_interest_rate (13 / 2)) ^ num_payments 30 - 1 ≠ 0 := by
    have : (1:ℚ) < ((1:ℚ) + monthly_interest_rate (13 / 2)) ^ num_payments 30 :=
      one_lt_pow₀ (by norm_num [monthly_interest_rate]) (by norm_num [num_payments])
    linarith
  refine ⟨160000 * (monthly_interest_rate (13 / 2) *
      (1 + monthly_interest_rate (13 / 2)) ^ num_payments 30) /
      ((1 + monthly_interest_rate (13 / 2)) ^ num_payments 30 - 1), ?_, ?_⟩
  · simp only [monthly_payment]
    rw [if_pos h1, if_neg h2]
  · rw [abs_sub_comm, lt_abs]
    left
    norm_num [monthly_interest_rate, num_payments]

set_option maxRecDepth 4000 in
/-- Claim C9 as amended: for loan 160000 at 6.5 % over 30 years the computed
monthly payment is within 0.01 of 1011.31 (the exact value is ≈ 1011.3088). -/
theorem claim_C9_amended :
    ∃ q, monthly_payment 160000 (13 / 2) 30 = Except.ok q ∧
      |q - 101131 / 100| ≤ 1 / 100 := by
  have h1 : (0:ℚ) < monthly_interest_rate (13 / 2) := by
    norm_num [monthly_interest_rate]
  have h2 : ((1:ℚ) + monthly_interest_rate (13 / 2)) ^ num_payments 30 - 1 ≠ 0 := by
    have : (1:ℚ) < ((1:ℚ) + monthly_interest_rate (13 / 2)) ^ num_payments 30 :=
      one_lt_pow₀ (by norm_num [monthly_interest_rate]) (by norm_num [num_payments])
    linarith
  refine ⟨160000 * (monthly_interest_rate (13 / 2) *
      (1 + monthly_interest_rate (13 / 2)) ^ num_payments 30) /
      ((1 + monthly_interest_rate (13 / 2)) ^ num_payments 30 - 1), ?_, ?_⟩
  · simp only [monthly_payment]
    rw [if_pos h1, if_neg h2]
  · rw [abs_le]
    constructor
    · norm_num [monthly_interest_rate, num_payments]
    · norm_num [monthly_interest_rate, num_payments]

/-- Counterexample to claim C10: the string `"1 sq ft2"` is not of the claimed
shape (its `" sq ft"` is not a suffix), so the claim maps it to the default,
yet `safe_numeric_get` deletes `" sq ft"` mid-string and returns 12.0. -/
theorem claim_C10_counterexample :
    specNumericString "1 sq ft2" = false ∧
    safe_numeric_get [("sqft", PyVal.str "1 sq ft2")] "sqft" none = some 12 := by
  constructor
  · decide
  · have h1 : safe_get [("sqft", PyVal.str "1 sq ft2")] "sqft" =
        PyVal.str "1 sq ft2" := rfl
    have hc : cleanNumeric "1 sq ft2" = ['1', '2'] := by decide
    have hf : pyFloat ['1', '2'] = some (((12 : ℕ) : ℚ) + ((0 : ℕ) : ℚ) / 10 ^ (0 : ℕ)) := by
      unfold pyFloat
      rw [if_pos (by decide)]
      rfl
    simp only [safe_numeric_get, h1, hc]
    rw [if_neg (show ¬ ("1 sq ft2" : String) = "N/A" by decide),
      if_pos (show pyIsDigit ((['1', '2']).filter fun c => c ≠ '.') = true by decide)]
    simp only [hf]
    norm_num

/-- Claim C10 as amended: `safe_numeric_get` is total and returns the float of
a numeric value (booleans included, as Python ints); for a string it deletes
*every* occurrence of `,`, `$` and `" sq ft"` — anywhere in the string, not
only as a suffix — trims whitespace, and returns the value of the remainder if
it consists of digits with at most one decimal point and at least one digit;
every other input — negative-number strings such as `"-5"` and UUID-like
strings included — yields the given default. -/
theorem claim_C10_amended :
    (∀ (data : PyDict) (key : String) (default : Option ℚ),
      safe_numeric_get data key default = specNumericGetAmended data key default) ∧
    safe_numeric_get [("k", PyVal.str "-5")] "k" none = none ∧
    safe_numeric_get [("k", PyVal.str "123e4567-e89b-12d3-a456-426614174000")] "k"
      (some 7) = some 7 ∧
    safe_numeric_get [("k", PyVal.str "$1,234.56 sq ft")] "k" none = some (123456 / 100) := by
  have hdollar : safe_numeric_get [("k", PyVal.str "$1,234.56 sq ft")] "k" none =
      some (123456 / 100) := by
    have h1 : safe_get [("k", PyVal.str "$1,234.56 sq ft")] "k" =
        PyVal.str "$1,234.56 sq ft" := rfl
    have hc : cleanNumeric "$1,234.56 sq ft" = ['1', '2', '3', '4', '.', '5', '6'] := by
      decide
    have hf : pyFloat ['1', '2', '3', '4', '.', '5', '6'] =
        some (((1234 : ℕ) : ℚ) + ((56 : ℕ) : ℚ) / 10 ^ (2 : ℕ)) := by
      unfold pyFloat
      rw [if_pos (by decide)]
      rfl
    simp only [safe_numeric_get, h1, hc]
    rw [if_neg (show ¬ ("$1,234.56 sq ft" : String) = "N/A" by decide),
      if_pos (show pyIsDigit ((['1', '2', '3', '4', '.', '5', '6']).filter
        fun c => c ≠ '.') = true by decide)]
    simp only [hf]
    norm_num
  refine ⟨fun data key default => ?_, by decide, by decide, hdollar⟩
  cases hpg : pyGet data key with
  | none => simp [safe_numeric_get, specNumericGetAmended, safe_get, hpg]
  | some v =>
    cases v with
    | null => simp [safe_numeric_get, specNumericGetAmended, safe_get, hpg]
    | num q => simp [safe_numeric_get, specNumericGetAmended, safe_get, hpg]
    | bool b => simp [safe_numeric_get, specNumericGetAmended, safe_get, hpg]
    | dict d => simp [safe_numeric_get, specNumericGetAmended, safe_get, hpg]
    | list l =>
      cases l with
      | nil => simp [safe_numeric_get, specNumericGetAmended, safe_get, hpg]
      | cons a t => simp [safe_numeric_get, specNumericGetAmended, safe_get, hpg]
    | str s =>
      by_cases hs : s = ""
      · subst hs
        have h0 : pyFloat (cleanNumeric "") = none := by decide
        simp [safe_numeric_get, specNumericGetAmended, safe_get, hpg, h0]
      · by_cases hna : s = "N/A"
        · subst hna
          simp [safe_numeric_get, specNumericGetAmended, safe_get, hpg]
        · simp only [safe_numeric_get, specNumericGetAmended, safe_get, hpg,
            if_neg hs, if_neg hna]
          by_cases hg : pyIsDigit ((cleanNumeric s).filter fun c => c ≠ '.') = true
          · rw [if_pos hg]
          · rw [if_neg hg, pyFloat_eq_none_of_guard_false _ hg]

end Hudson
